import Mathlib

/-!
# rpc_into_container

A shallow embedding of `server.go` (`CmdExecutor.Run`) and `client.go`
(`CmdExecutorContainer.Start/Stop/GetIP`, `RunClient`).

The operating system (process execution) and the container engine / network
are parameters of the model: every call the Go code makes to them is a call
of the corresponding field, and every such call is recorded in a trace.
-/

namespace RpcIntoContainer

/-! ## Go values -/

/-- A non-nil Go `error` value. A Go `error` that may be nil is `Option GoError`. -/
inductive GoError where
  /-- An `*exec.ExitError`: the process ran and ended with this (non-zero) status. -/
  | exitError (code : Int)
  /-- Any other error, by its message (`errors.New`, `*exec.Error`, engine and network errors). -/
  | msg (text : String)
  deriving DecidableEq, Repr

/-- Outcome of a Go call: it returns a value, or it panics (run-time error that
nothing in this program recovers, so the process aborts). -/
inductive Go (α : Type) where
  | ret (a : α)
  | panic (what : String)
  deriving DecidableEq, Repr

/-! ## server.go -/

/-- The `CmdExecutorRes` struct. The zero value is `{}`. -/
structure CmdExecutorRes where
  Stdout : String := ""
  Stderr : String := ""
  Err : Option GoError := none
  deriving DecidableEq, Repr

/-- What happens to the process of `exec.Command(name, args...)` under `cmd.Run()`:
either it never launches, or it runs to its end having written `stdout` and
`stderr` and exits with `code`. -/
inductive ProcResult where
  | notStarted (cause : GoError)
  | exited (stdout stderr : String) (code : Int)
  deriving DecidableEq, Repr

/-- The operating system as `cmd.Run()` sees it: executable name and arguments
to the fate of the process. -/
abbrev Exec := String → List String → ProcResult

/-- Contents of the `stdout` buffer after `cmd.Run()`. -/
def ProcResult.outBuf : ProcResult → String
  | .notStarted _ => ""
  | .exited o _ _ => o

/-- Contents of the `stderr` buffer after `cmd.Run()`. -/
def ProcResult.errBuf : ProcResult → String
  | .notStarted _ => ""
  | .exited _ e _ => e

/-- The error `cmd.Run()` returns: nil exactly when the process launched and
exited with status zero. -/
def ProcResult.runErr : ProcResult → Option GoError
  | .notStarted cause => some cause
  | .exited _ _ code => if code = 0 then none else some (.exitError code)

/-- The method `func (r *CmdExecutor) Run(cmdStr []string, res *CmdExecutorRes) error`.
Returns the updated `*res` together with the returned error. The `log.Print` of
the request has no effect on the result and is left out. -/
def Run (exec : Exec) (cmdStr : List String) (res : CmdExecutorRes) :
    Go (CmdExecutorRes × Option GoError) :=
  match cmdStr with
  | [] => .panic "runtime error: index out of range [0] with length 0"
  | name :: args =>
    -- cmd := exec.Command(cmdStr[0], cmdStr[1:]...); buffers attached; cmd.Run()
    let p := exec name args
    let stdout := p.outBuf
    let stderr := p.errBuf
    let res := { res with Err := p.runErr }
    if res.Err ≠ none then
      .ret (res, res.Err)
    else
      let res := { res with Stdout := stdout }
      let res := { res with Stderr := stderr }
      .ret (res, res.Err)

/-- A sample operating system used to evaluate the model on concrete commands. -/
def sampleExec : Exec := fun name args =>
  if name = "echo" then .exited (" ".intercalate args ++ "\n") "" 0
  else if name = "false" then .exited "" "" 1
  else if name = "sh" ∧ args = ["-c", "echo out; echo err 1>&2; exit 3"] then
    .exited "out\n" "err\n" 3
  else .notStarted (.msg ("exec: " ++ name ++ ": executable file not found in $PATH"))

/-! ## client.go -/

/-- The `*client.Client` handle of the container engine (nil is `none`). -/
inductive DockerClient where
  | fromEnv
  deriving DecidableEq, Repr

/-- The `context.Context` held by the container record (nil is `none`). -/
inductive Context where
  | background
  deriving DecidableEq, Repr

/-- The `container.ContainerCreateCreatedBody` struct; the zero value is `{}`. -/
structure ContainerCreateCreatedBody where
  ID : String := ""
  Warnings : List String := []
  deriving DecidableEq, Repr

/-- The `types.NetworkSettings` struct, as far as the program reads it. -/
structure NetworkSettings where
  IPAddress : String := ""
  deriving DecidableEq, Repr

/-- The `types.ContainerJSON` struct, as far as the program reads it;
`NetworkSettings` is a pointer (nil is `none`). -/
structure ContainerJSON where
  NetworkSettings : Option NetworkSettings := none
  deriving DecidableEq, Repr

/-- The `CmdExecutorContainer` struct; the zero value is `{}`. -/
structure CmdExecutorContainer where
  ctx : Option Context := none
  client : Option DockerClient := none
  ct : ContainerCreateCreatedBody := {}
  deriving DecidableEq, Repr

/-- Everything the client program does to the outside, in program order. -/
inductive Event where
  /-- Call of `client.NewClientWithOpts(client.FromEnv)` -/
  | newClient
  /-- Call of `ContainerCreate` with the given image -/
  | containerCreate (image : String)
  /-- Call of `ContainerStart` of the given container ID -/
  | containerStart (id : String)
  /-- Call of `ContainerStop` of the given container ID -/
  | containerStop (id : String)
  /-- Call of `ContainerInspect` of the given container ID -/
  | containerInspect (id : String)
  /-- Call of `time.Sleep` of that many seconds -/
  | sleep (seconds : Nat)
  /-- Call of `rpc.DialHTTP(network, address)` -/
  | dialHTTP (network address : String)
  /-- Call of `client.Call(method, args, &reply)` -/
  | call (method : String) (args : List String)
  /-- Call of `log.Println(text, err)` -/
  | logErr (text : String) (err : GoError)
  /-- Call of `log.Println(text, value)` -/
  | logInfo (text value : String)
  /-- The final `log.Printf` of the three fields of the reply -/
  | logRes (res : CmdExecutorRes)
  /-- Call of `log.Fatal(text, err)`: prints, then `os.Exit(1)` -/
  | fatal (text : String) (err : GoError)
  deriving DecidableEq, Repr

/-- The engine client library with the container engine behind it, and the
network, as a state machine over `σ`: each field is what the library call
returns on a non-nil client with a non-nil context, answering from the current
state and moving to the next one. Every operation is taken to return; a call
that blocks forever is outside the model. -/
structure World (σ : Type) where
  newClient : σ → Except GoError DockerClient × σ
  containerCreate : String → σ → Except GoError ContainerCreateCreatedBody × σ
  containerStart : String → σ → Option GoError × σ
  containerStop : String → σ → Option GoError × σ
  containerInspect : String → σ → Except GoError ContainerJSON × σ
  dialHTTP : String → String → σ → Option GoError × σ
  call : String → List String → σ → Except GoError CmdExecutorRes × σ

/-- State of a run of the client: the outside world and the trace so far. -/
structure Sys (σ : Type) where
  world : σ
  trace : List Event

/-- Record an event and move the world on. -/
def Sys.next {σ : Type} (s : Sys σ) (e : Event) (world : σ) : Sys σ :=
  { world := world, trace := s.trace ++ [e] }

/-- Record an event that leaves the world as it is (logging, sleeping). -/
def Sys.emit {σ : Type} (s : Sys σ) (e : Event) : Sys σ :=
  s.next e s.world

/-- The method `func (a *CmdExecutorContainer) Start() (err error)`.
Returns the updated `*a`, the returned error and the state after. -/
def CmdExecutorContainer.Start {σ : Type} (w : World σ) (a : CmdExecutorContainer)
    (s : Sys σ) : CmdExecutorContainer × Option GoError × Sys σ :=
  let a := { a with ctx := some .background }
  let r := w.newClient s.world
  let s := s.next .newClient r.2
  match r.1 with
  | .error err => ({ a with client := none }, some err, s)
  | .ok c =>
    let a := { a with client := some c }
    let r := w.containerCreate "cmdexecutor:latest" s.world
    let s := s.next (.containerCreate "cmdexecutor:latest") r.2
    match r.1 with
    | .error err => ({ a with ct := {} }, some err, s)
    | .ok ct =>
      let a := { a with ct := ct }
      let r := w.containerStart a.ct.ID s.world
      (a, r.1, s.next (.containerStart a.ct.ID) r.2)

/-- The method `func (a *CmdExecutorContainer) Stop() (err error)`:
`a.client.ContainerStop(a.ctx, a.ct.ID, nil)`. The call through a nil `a.client`
dereferences a nil pointer, and with a nil `a.ctx` the request cannot be built
(nil context); both are panics. -/
def CmdExecutorContainer.Stop {σ : Type} (w : World σ) (a : CmdExecutorContainer)
    (s : Sys σ) : Go (Option GoError) × Sys σ :=
  match a.client, a.ctx with
  | none, _ => (.panic "invalid memory address or nil pointer dereference", s)
  | some _, none => (.panic "nil context", s)
  | some _, some _ =>
    let r := w.containerStop a.ct.ID s.world
    (.ret r.1, s.next (.containerStop a.ct.ID) r.2)

/-- What `a.client.ContainerInspect(a.ctx, a.ct.ID)` gives in `GetIP`. On a
non-nil client with a non-nil context it is the answer of the world. Otherwise
the library still rejects an empty ID with a not-found error before it touches
the client or the context, and any other ID is a panic (nil pointer dereference
or nil context). -/
def CmdExecutorContainer.inspect {σ : Type} (w : World σ) (a : CmdExecutorContainer)
    (s : Sys σ) : Go (Except GoError ContainerJSON) × Sys σ :=
  match a.client, a.ctx with
  | some _, some _ =>
    let r := w.containerInspect a.ct.ID s.world
    (.ret r.1, s.next (.containerInspect a.ct.ID) r.2)
  | none, _ =>
    if a.ct.ID = "" then
      (.ret (.error (.msg "Error: No such container: ")), s.emit (.containerInspect a.ct.ID))
    else
      (.panic "invalid memory address or nil pointer dereference", s)
  | some _, none =>
    if a.ct.ID = "" then
      (.ret (.error (.msg "Error: No such container: ")), s.emit (.containerInspect a.ct.ID))
    else
      (.panic "nil context", s)

/-- The method `func (a *CmdExecutorContainer) GetIP() (ip string, err error)`. -/
def CmdExecutorContainer.GetIP {σ : Type} (w : World σ) (a : CmdExecutorContainer)
    (s : Sys σ) : Go (String × Option GoError) × Sys σ :=
  match a.inspect w s with
  | (.panic what, s) => (.panic what, s)
  | (.ret (.error err), s) => (.ret ("", some err), s)
  | (.ret (.ok res), s) =>
    match res.NetworkSettings with
    | none => (.ret ("", some (.msg "NetworkSettings nil")), s)
    | some ns => (.ret (ns.IPAddress, none), s)

/-- How a run of `RunClient` ends. -/
inductive Exit where
  /-- The function returned -/
  | returned
  /-- Ended by `log.Fatal` through `os.Exit(1)`; deferred calls do not run -/
  | fatal
  /-- An unrecovered panic ended the process -/
  | panicked
  deriving DecidableEq, Repr

/-- The statements of `RunClient` after `defer cmdExecutorContainer.Stop()`,
up to the return of the function. -/
def RunClient.body {σ : Type} (w : World σ) (a : CmdExecutorContainer)
    (cmd : List String) (s : Sys σ) : Go Unit × Sys σ :=
  let s := s.emit (.sleep 1)
  match a.GetIP w s with
  | (.panic what, s) => (.panic what, s)
  | (.ret (_, some err), s) => (.ret (), s.emit (.logErr "Err GetIP " err))
  | (.ret (containerIP, none), s) =>
    let s := s.emit (.logInfo "CmdExecutorContainer IP " containerIP)
    let d := w.dialHTTP "tcp" (containerIP ++ ":3000") s.world
    let s := s.next (.dialHTTP "tcp" (containerIP ++ ":3000")) d.2
    match d.1 with
    | some err => (.ret (), s.emit (.logErr "rpc.DialHTTP: " err))
    | none =>
      let c := w.call "CmdExecutor.Run" cmd s.world
      let s := s.next (.call "CmdExecutor.Run" cmd) c.2
      match c.1 with
      | .error err => (.ret (), s.emit (.logErr "Err client.Call: " err))
      | .ok cmdERes => (.ret (), s.emit (.logRes cmdERes))

/-- The function `func RunClient()`, started in world state `σ₀` with an empty
trace. The reply variable `cmdERes` starts as the zero value and is only read by
the final `log.Printf`, where it holds the reply of the call. -/
def RunClient {σ : Type} (w : World σ) (σ₀ : σ) : Exit × Sys σ :=
  let cmdExecutorContainer : CmdExecutorContainer := {}
  let cmd := ["echo", "Hello From Container"]
  match cmdExecutorContainer.Start w { world := σ₀, trace := [] } with
  | (_, some err, s) => (.fatal, s.emit (.fatal "ContainerStart " err))
  | (a, none, s) =>
    -- defer cmdExecutorContainer.Stop(): runs when the function returns or panics
    let b := RunClient.body w a cmd s
    let d := a.Stop w b.2
    match b.1, d.1 with
    | .ret _, .ret _ => (.returned, d.2)
    | _, _ => (.panicked, d.2)

/-- Whether an event is a `ContainerStop`. -/
def Event.isStop : Event → Bool
  | .containerStop _ => true
  | _ => false

/-- Whether an event is an address resolution (`ContainerInspect`). -/
def Event.isInspect : Event → Bool
  | .containerInspect _ => true
  | _ => false

/-- Whether an event is a network operation (`rpc.DialHTTP` or `client.Call`). -/
def Event.isNetwork : Event → Bool
  | .dialHTTP _ _ => true
  | .call _ _ => true
  | _ => false

/-- Whether an event is an engine `ContainerStart`. -/
def Event.isStart : Event → Bool
  | .containerStart _ => true
  | _ => false

/-- A scripted world for concrete runs: every operation gives a fixed answer,
and the state counts the operations performed. -/
structure Script where
  newClient : Except GoError DockerClient := .ok .fromEnv
  create : Except GoError ContainerCreateCreatedBody := .ok { ID := "c0ffee" }
  start : Option GoError := none
  stop : Option GoError := none
  inspect : Except GoError ContainerJSON :=
    .ok { NetworkSettings := some { IPAddress := "172.17.0.2" } }
  dial : Option GoError := none
  call : Except GoError CmdExecutorRes := .ok { Stdout := "Hello From Container\n" }

/-- The world that follows a script. -/
def Script.world (k : Script) : World Nat where
  newClient := fun n => (k.newClient, n + 1)
  containerCreate := fun _ n => (k.create, n + 1)
  containerStart := fun _ n => (k.start, n + 1)
  containerStop := fun _ n => (k.stop, n + 1)
  containerInspect := fun _ n => (k.inspect, n + 1)
  dialHTTP := fun _ _ n => (k.dial, n + 1)
  call := fun _ _ n => (k.call, n + 1)

/-- The container record that `Start` leaves behind in a scripted world, from
the zero value. -/
def Script.started (k : Script) : CmdExecutorContainer :=
  (CmdExecutorContainer.Start k.world {} { world := 0, trace := [] }).1

/-- The state that `Start` leaves behind in a scripted world. -/
def Script.afterStart (k : Script) : Sys Nat :=
  (CmdExecutorContainer.Start k.world {} { world := 0, trace := [] }).2.2

/-! ## Theorems: server.go -/

/-- C1 (as the code behaves): when the process launches, writes `out` and `err`
and exits with a non-zero status, `Run` on a fresh result sets `Err` but returns
before the buffers are copied, so `Stdout` and `Stderr` are both empty whatever
the process wrote. -/
theorem Run_drops_output_on_failure (exec : Exec) (name : String) (args : List String)
    (out err : String) (code : Int)
    (hrun : exec name args = .exited out err code) (hcode : code ≠ 0) :
    Run exec (name :: args) {} =
      .ret ({ Stdout := "", Stderr := "", Err := some (.exitError code) },
            some (.exitError code)) := by
  simp [Run, hrun, ProcResult.runErr, hcode]

/-- C1 at a concrete command: the process wrote to both streams and exited 3. -/
theorem Run_drops_output_on_failure_witness :
    sampleExec "sh" ["-c", "echo out; echo err 1>&2; exit 3"] = .exited "out\n" "err\n" 3 ∧
    (3 : Int) ≠ 0 ∧
    Run sampleExec ["sh", "-c", "echo out; echo err 1>&2; exit 3"] {} =
      .ret ({ Stdout := "", Stderr := "", Err := some (.exitError 3) },
            some (.exitError 3)) :=
  ⟨by decide, by decide,
   Run_drops_output_on_failure sampleExec "sh" ["-c", "echo out; echo err 1>&2; exit 3"]
     "out\n" "err\n" 3 (by decide) (by decide)⟩

/-- C2 fails as stated: for `["false"]`, which launches and exits 1, `Run` does
not return a nil error to the RPC layer. -/
theorem Run_failure_returned_nil_counterexample :
    ¬ ∃ res, Run sampleExec ["false"] {} = .ret (res, none) := by
  rintro ⟨res, h⟩
  have hrun : Run sampleExec ["false"] {} =
      .ret ({ Err := some (.exitError 1) }, some (.exitError 1)) := by decide
  rw [hrun] at h
  cases h

/-- C2 (amended): for every command whose process fails to launch or exits
non-zero, `Run` reports the failure as data in the `Err` field of the result and
also returns that same non-nil error to the RPC layer. -/
theorem Run_failure_is_returned (exec : Exec) (name : String) (args : List String)
    (res : CmdExecutorRes) (hfail : (exec name args).runErr ≠ none) :
    ∃ e res', (exec name args).runErr = some e ∧
      Run exec (name :: args) res = .ret (res', some e) ∧ res'.Err = some e := by
  obtain ⟨e, he⟩ := Option.ne_none_iff_exists'.mp hfail
  exact ⟨e, { res with Err := some e }, he, by simp [Run, he], rfl⟩

/-- C2 (amended) at `["false"]`, which launches and exits 1. -/
theorem Run_failure_is_returned_witness :
    (sampleExec "false" []).runErr ≠ none ∧
    ∃ e res', (sampleExec "false" []).runErr = some e ∧
      Run sampleExec ["false"] {} = .ret (res', some e) ∧ res'.Err = some e :=
  ⟨by decide, Run_failure_is_returned sampleExec "false" [] {} (by decide)⟩

/-- C3: for every non-empty command whose process launches and exits with
status zero, `Run` returns a nil error and a result with `Err` nil, `Stdout`
exactly what the process wrote to standard output and `Stderr` exactly what it
wrote to standard error. -/
theorem Run_success (exec : Exec) (name : String) (args : List String)
    (res : CmdExecutorRes) (out err : String)
    (hrun : exec name args = .exited out err 0) :
    Run exec (name :: args) res =
      .ret ({ Stdout := out, Stderr := err, Err := none }, none) := by
  simp [Run, hrun, ProcResult.runErr, ProcResult.outBuf, ProcResult.errBuf]

/-- C3 at `["echo", "hello"]`. -/
theorem Run_success_witness :
    sampleExec "echo" ["hello"] = .exited "hello\n" "" 0 ∧
    Run sampleExec ["echo", "hello"] {} =
      .ret ({ Stdout := "hello\n", Stderr := "", Err := none }, none) :=
  ⟨by decide, Run_success sampleExec "echo" ["hello"] {} "hello\n" "" (by decide)⟩

/-- C8: for every command whose process fails to launch (such as a nonexistent
executable), and for `["false"]` exiting 1 without output, `Run` on a fresh
result returns a result with `Err` non-nil and `Stdout` and `Stderr` both
empty. -/
theorem Run_failure_fresh_empty (exec : Exec) (name : String) (args : List String)
    (h : (∃ cause, exec name args = .notStarted cause) ∨
         (name = "false" ∧ args = [] ∧ exec name args = .exited "" "" 1)) :
    ∃ e, Run exec (name :: args) {} =
      .ret ({ Stdout := "", Stderr := "", Err := some e }, some e) := by
  rcases h with ⟨cause, hc⟩ | ⟨_, _, hf⟩
  · exact ⟨cause, by simp [Run, hc, ProcResult.runErr]⟩
  · exact ⟨.exitError 1, by simp [Run, hf, ProcResult.runErr]⟩

/-- C8 at a nonexistent executable and at `["false"]`. -/
theorem Run_failure_fresh_empty_witness :
    (∃ e, Run sampleExec ["no-such-program", "-v"] {} =
      .ret ({ Stdout := "", Stderr := "", Err := some e }, some e)) ∧
    (∃ e, Run sampleExec ["false"] {} =
      .ret ({ Stdout := "", Stderr := "", Err := some e }, some e)) :=
  ⟨Run_failure_fresh_empty sampleExec "no-such-program" ["-v"] 
     (Or.inl ⟨.msg "exec: no-such-program: executable file not found in $PATH", by decide⟩),
   Run_failure_fresh_empty sampleExec "false" [] (Or.inr ⟨rfl, rfl, by decide⟩)⟩

/-- C9 (as the code behaves): on the zero-element request `Run` does not return;
its access to element 0 panics, whatever the operating system and the result
passed in. -/
theorem Run_empty_request_panics (exec : Exec) (res : CmdExecutorRes) :
    Run exec [] res = .panic "runtime error: index out of range [0] with length 0" := by
  rfl

/-! ## Theorems: client.go -/

/-- With a non-nil client and context, the statements after the `defer` return normally and
only append events, none of them a `ContainerStop`. -/
theorem RunClient.body_trace {σ : Type} (w : World σ) (a : CmdExecutorContainer)
    (cmd : List String) (s : Sys σ) (c : DockerClient) (x : Context)
    (hc : a.client = some c) (hx : a.ctx = some x) :
    (RunClient.body w a cmd s).1 = .ret () ∧
    ∃ ext, (RunClient.body w a cmd s).2.trace = s.trace ++ ext ∧
      ∀ e ∈ ext, e.isStop = false := by
  unfold RunClient.body CmdExecutorContainer.GetIP CmdExecutorContainer.inspect
  simp only [hc, hx]
  rcases hi : (w.containerInspect a.ct.ID (s.emit (.sleep 1)).world).1 with err | res
  · simp [Sys.emit, Sys.next, Event.isStop]
  · rcases hn : res.NetworkSettings with _ | ns
    · simp [hn, Sys.emit, Sys.next, Event.isStop]
    · simp only [hn]
      rcases hd : (w.dialHTTP "tcp" (ns.IPAddress ++ ":3000")
          (w.containerInspect a.ct.ID (s.emit (.sleep 1)).world).2).1 with _ | err
      · rcases hk : (w.call "CmdExecutor.Run" cmd
            (w.dialHTTP "tcp" (ns.IPAddress ++ ":3000")
              (w.containerInspect a.ct.ID (s.emit (.sleep 1)).world).2).2).1 with err | r
        · simp_all [Sys.emit, Sys.next, Event.isStop]
        · simp_all [Sys.emit, Sys.next, Event.isStop]
      · simp_all [Sys.emit, Sys.next, Event.isStop]

/-- When `Start` returns a nil error, the client and the context are non-nil and
exactly three engine operations were performed: client construction, create,
start. -/
theorem CmdExecutorContainer.Start_ok {σ : Type} (w : World σ) (a : CmdExecutorContainer)
    (s : Sys σ) (h : (a.Start w s).2.1 = none) :
    (∃ c, (a.Start w s).1.client = some c) ∧
    (a.Start w s).1.ctx = some .background ∧
    (a.Start w s).2.2.trace = s.trace ++
      [.newClient, .containerCreate "cmdexecutor:latest",
       .containerStart (a.Start w s).1.ct.ID] := by
  unfold CmdExecutorContainer.Start at h ⊢
  rcases h0 : (w.newClient s.world).1 with e0 | c
  · simp [h0] at h
  · rcases h1 : (w.containerCreate "cmdexecutor:latest" (w.newClient s.world).2).1
      with e1 | ct
    · simp [h0, h1, Sys.next] at h
    · exact ⟨⟨c, by simp [h0, h1, Sys.next]⟩, by simp [h0, h1, Sys.next],
        by simp [h0, h1, Sys.next]⟩

/-- C4: in every run of `RunClient` in which `Start` succeeded (the sandbox was
created and started), the function returns, and its trace is some events none of
which is a `ContainerStop`, followed by exactly one `ContainerStop` of the
created sandbox as the last event: whichever of address resolution, dialling
and the `Run` call fails or succeeds. -/
theorem RunClient_stops_once_at_end {σ : Type} (w : World σ) (σ₀ : σ)
    (hstart : (CmdExecutorContainer.Start w {} { world := σ₀, trace := [] }).2.1 = none) :
    (RunClient w σ₀).1 = .returned ∧
    ∃ pre, (RunClient w σ₀).2.trace = pre ++
        [.containerStop
          (CmdExecutorContainer.Start w {} { world := σ₀, trace := [] }).1.ct.ID] ∧
      ∀ e ∈ pre, e.isStop = false := by
  obtain ⟨⟨c, hc⟩, hx, htr⟩ :=
    CmdExecutorContainer.Start_ok w {} { world := σ₀, trace := [] } hstart
  rcases hS : CmdExecutorContainer.Start w {} { world := σ₀, trace := [] } with ⟨a, err, s⟩
  rw [hS] at hstart hc hx htr
  simp only at hstart hc hx htr
  subst hstart
  simp only [RunClient, hS]
  obtain ⟨hb, ext, hext, hno⟩ :=
    RunClient.body_trace w a ["echo", "Hello From Container"] s c .background hc hx
  simp only [CmdExecutorContainer.Stop, hc, hx, hb, Sys.next, hext, htr]
  refine ⟨trivial, _, rfl, ?_⟩
  intro e he
  simp only [List.nil_append, List.mem_append, List.mem_cons, List.mem_singleton,
    List.not_mem_nil, or_false] at he
  rcases he with (rfl | rfl | rfl) | he
  · rfl
  · rfl
  · rfl
  · exact hno e he

/-- C4 on a run where everything succeeds and on one where dialling fails. -/
theorem RunClient_stops_once_at_end_witness :
    ((RunClient ({} : Script).world 0).1 = .returned ∧
      ∃ pre, (RunClient ({} : Script).world 0).2.trace = pre ++ [.containerStop "c0ffee"] ∧
        ∀ e ∈ pre, e.isStop = false) ∧
    ((RunClient ({ dial := some (.msg "connection refused") } : Script).world 0).1 = .returned ∧
      ∃ pre, (RunClient ({ dial := some (.msg "connection refused") } : Script).world 0).2.trace
          = pre ++ [.containerStop "c0ffee"] ∧
        ∀ e ∈ pre, e.isStop = false) :=
  ⟨RunClient_stops_once_at_end ({} : Script).world 0 (by decide),
   RunClient_stops_once_at_end ({ dial := some (.msg "connection refused") } : Script).world 0
     (by decide)⟩

/-- C5 fails as stated: when Create is accepted and Start is rejected, the run
ends in `log.Fatal` and no `ContainerStop` is attempted. -/
theorem RunClient_start_rejected_counterexample :
    (RunClient ({ start := some (.msg "start rejected") } : Script).world 0).1 = .fatal ∧
    (RunClient ({ start := some (.msg "start rejected") } : Script).world 0).2.trace =
      [.newClient, .containerCreate "cmdexecutor:latest", .containerStart "c0ffee",
       .fatal "ContainerStart " (.msg "start rejected")] ∧
    ¬ ∃ e ∈ (RunClient ({ start := some (.msg "start rejected") } : Script).world 0).2.trace,
        e.isStop = true := by
  decide

/-- C5 (amended): when the engine accepts Create but rejects Start, `RunClient`
ends the process through `log.Fatal` reporting the error, as its last event,
without resolving an address and without any network operation. -/
theorem RunClient_start_rejected {σ : Type} (w : World σ) (σ₀ : σ) (c : DockerClient)
    (ct : ContainerCreateCreatedBody) (err : GoError)
    (h0 : (w.newClient σ₀).1 = .ok c)
    (h1 : (w.containerCreate "cmdexecutor:latest" (w.newClient σ₀).2).1 = .ok ct)
    (h2 : (w.containerStart ct.ID
            (w.containerCreate "cmdexecutor:latest" (w.newClient σ₀).2).2).1 = some err) :
    (RunClient w σ₀).1 = .fatal ∧
    (RunClient w σ₀).2.trace.getLast? = some (.fatal "ContainerStart " err) ∧
    ∀ e ∈ (RunClient w σ₀).2.trace, e.isInspect = false ∧ e.isNetwork = false := by
  simp [RunClient, CmdExecutorContainer.Start, Sys.next, Sys.emit, h0, h1, h2,
    Event.isInspect, Event.isNetwork]

/-- C5 (amended) on a scripted run. -/
theorem RunClient_start_rejected_witness :
    (RunClient ({ start := some (.msg "start rejected") } : Script).world 0).1 = .fatal ∧
    (RunClient ({ start := some (.msg "start rejected") } : Script).world 0).2.trace.getLast?
      = some (.fatal "ContainerStart " (.msg "start rejected")) ∧
    ∀ e ∈ (RunClient ({ start := some (.msg "start rejected") } : Script).world 0).2.trace,
      e.isInspect = false ∧ e.isNetwork = false :=
  RunClient_start_rejected ({ start := some (.msg "start rejected") } : Script).world 0
    .fromEnv { ID := "c0ffee" } (.msg "start rejected") rfl rfl rfl

/-- C6: when the engine's Create fails, `RunClient` reports the failure through
`log.Fatal` and ends; its whole trace is client construction, the Create
attempt and the fatal report, so it performs no engine Start, no address
resolution, no network connection or call, and no Stop. -/
theorem RunClient_create_fails {σ : Type} (w : World σ) (σ₀ : σ) (c : DockerClient)
    (err : GoError)
    (h0 : (w.newClient σ₀).1 = .ok c)
    (h1 : (w.containerCreate "cmdexecutor:latest" (w.newClient σ₀).2).1 = .error err) :
    (RunClient w σ₀).1 = .fatal ∧
    (RunClient w σ₀).2.trace =
      [.newClient, .containerCreate "cmdexecutor:latest", .fatal "ContainerStart " err] ∧
    ∀ e ∈ (RunClient w σ₀).2.trace,
      e.isStart = false ∧ e.isInspect = false ∧ e.isNetwork = false ∧ e.isStop = false := by
  simp [RunClient, CmdExecutorContainer.Start, Sys.next, Sys.emit, h0, h1,
    Event.isStart, Event.isInspect, Event.isNetwork, Event.isStop]

/-- C6 on a scripted run. -/
theorem RunClient_create_fails_witness :
    (RunClient ({ create := .error (.msg "no such image") } : Script).world 0).1 = .fatal ∧
    (RunClient ({ create := .error (.msg "no such image") } : Script).world 0).2.trace =
      [.newClient, .containerCreate "cmdexecutor:latest",
       .fatal "ContainerStart " (.msg "no such image")] ∧
    ∀ e ∈ (RunClient ({ create := .error (.msg "no such image") } : Script).world 0).2.trace,
      e.isStart = false ∧ e.isInspect = false ∧ e.isNetwork = false ∧ e.isStop = false :=
  RunClient_create_fails ({ create := .error (.msg "no such image") } : Script).world 0
    .fromEnv (.msg "no such image") rfl rfl

/-- C7 fails as stated: on the record `Start` has set up, when the engine's
inspect answer has network settings with an empty address, `GetIP` returns the
empty address with a nil error. -/
theorem GetIP_empty_address_counterexample :
    (CmdExecutorContainer.Start
      ({ inspect := .ok { NetworkSettings := some { IPAddress := "" } } } : Script).world {}
      { world := 0, trace := [] }).2.1 = none ∧
    (CmdExecutorContainer.GetIP
      ({ inspect := .ok { NetworkSettings := some { IPAddress := "" } } } : Script).world
      ({ inspect := .ok { NetworkSettings := some { IPAddress := "" } } } : Script).started
      ({ inspect := .ok { NetworkSettings := some { IPAddress := "" } } } : Script).afterStart).1
      = .ret ("", none) := by
  decide

/-- C7 (amended): on a container record with client and context set (as `Start`
leaves it), `GetIP` returns an address with a nil error exactly when the inspect
call succeeds and its answer carries network settings, and the address is then
the reported one, empty or not; when the inspect call fails or the network
settings are absent it returns the empty address with a non-nil error. -/
theorem GetIP_result {σ : Type} (w : World σ) (a : CmdExecutorContainer) (s : Sys σ)
    (c : DockerClient) (x : Context) (hc : a.client = some c) (hx : a.ctx = some x) :
    (∀ ip, (a.GetIP w s).1 = .ret (ip, none) ↔
      ∃ res ns, (w.containerInspect a.ct.ID s.world).1 = .ok res ∧
        res.NetworkSettings = some ns ∧ ns.IPAddress = ip) ∧
    (((∃ err, (w.containerInspect a.ct.ID s.world).1 = .error err) ∨
      (∃ res, (w.containerInspect a.ct.ID s.world).1 = .ok res ∧ res.NetworkSettings = none)) →
      ∃ err, (a.GetIP w s).1 = .ret ("", some err)) := by
  unfold CmdExecutorContainer.GetIP CmdExecutorContainer.inspect
  simp only [hc, hx]
  rcases hi : (w.containerInspect a.ct.ID s.world).1 with err | res
  · simp
  · rcases hn : res.NetworkSettings with _ | ns
    · simp [hn]
    · simp [hn]

/-- C7 (amended) on the record `Start` leaves in three scripted worlds: the
engine reports an address, reports an empty address, reports no network
settings. -/
theorem GetIP_result_witness :
    (({} : Script).started.client = some .fromEnv ∧
      ({} : Script).started.ctx = some .background) ∧
    (CmdExecutorContainer.GetIP ({} : Script).world ({} : Script).started
        ({} : Script).afterStart).1 = .ret ("172.17.0.2", none) ∧
    (CmdExecutorContainer.GetIP
        ({ inspect := .ok { NetworkSettings := some { IPAddress := "" } } } : Script).world
        ({} : Script).started ({} : Script).afterStart).1 = .ret ("", none) ∧
    (∃ err, (CmdExecutorContainer.GetIP ({ inspect := .ok {} } : Script).world
        ({} : Script).started ({} : Script).afterStart).1 = .ret ("", some err)) :=
  ⟨⟨by decide, by decide⟩,
   ((GetIP_result ({} : Script).world ({} : Script).started ({} : Script).afterStart
      .fromEnv .background (by decide) (by decide)).1 "172.17.0.2").mpr
      ⟨{ NetworkSettings := some { IPAddress := "172.17.0.2" } },
       { IPAddress := "172.17.0.2" }, rfl, rfl, rfl⟩,
   ((GetIP_result
      ({ inspect := .ok { NetworkSettings := some { IPAddress := "" } } } : Script).world
      ({} : Script).started ({} : Script).afterStart
      .fromEnv .background (by decide) (by decide)).1 "").mpr
      ⟨{ NetworkSettings := some { IPAddress := "" } }, { IPAddress := "" }, rfl, rfl, rfl⟩,
   (GetIP_result ({ inspect := .ok {} } : Script).world ({} : Script).started
      ({} : Script).afterStart .fromEnv .background (by decide) (by decide)).2
      (Or.inr ⟨{}, rfl, rfl⟩)⟩

/-- C10 fails as stated: `Stop` on a container record on which `Start` never ran
(zero value, nil client) panics instead of returning an error. -/
theorem Stop_never_started_counterexample :
    (CmdExecutorContainer.Stop ({} : Script).world {} { world := 0, trace := [] }).1 =
      .panic "invalid memory address or nil pointer dereference" := by
  decide

/-- C10 (amended): on a container record with client and context set (as
`Start` leaves it), `Stop` never aborts, in whatever state the engine holds the
sandbox (running, already stopped, or never created because Create failed): it
makes one `ContainerStop` request and returns the engine's answer as the error
value, and a second `Stop` right after it returns in the same way. -/
theorem Stop_returns_with_client {σ : Type} (w : World σ) (a : CmdExecutorContainer)
    (s : Sys σ) (c : DockerClient) (x : Context)
    (hc : a.client = some c) (hx : a.ctx = some x) :
    (a.Stop w s).1 = .ret (w.containerStop a.ct.ID s.world).1 ∧
    (a.Stop w s).2.trace = s.trace ++ [.containerStop a.ct.ID] ∧
    (a.Stop w (a.Stop w s).2).1 = .ret (w.containerStop a.ct.ID (a.Stop w s).2.world).1 ∧
    (a.Stop w (a.Stop w s).2).2.trace =
      s.trace ++ [.containerStop a.ct.ID, .containerStop a.ct.ID] := by
  simp [CmdExecutorContainer.Stop, hc, hx, Sys.next]

/-- C10 (amended) on the record `Start` leaves when Create fails (no sandbox was
created, empty ID), with an engine that rejects every stop request. -/
theorem Stop_returns_with_client_witness :
    (({ create := .error (.msg "no such image"),
        stop := some (.msg "No such container") } : Script).started =
      { ctx := some .background, client := some .fromEnv, ct := {} }) ∧
    (CmdExecutorContainer.Stop
        ({ create := .error (.msg "no such image"),
           stop := some (.msg "No such container") } : Script).world
        { ctx := some .background, client := some .fromEnv, ct := {} }
        { world := 0, trace := [] }).1 =
      .ret (some (.msg "No such container")) ∧
    (CmdExecutorContainer.Stop
        ({ create := .error (.msg "no such image"),
           stop := some (.msg "No such container") } : Script).world
        { ctx := some .background, client := some .fromEnv, ct := {} }
        { world := 0, trace := [] }).2.trace =
      [.containerStop ""] ∧
    (CmdExecutorContainer.Stop
        ({ create := .error (.msg "no such image"),
           stop := some (.msg "No such container") } : Script).world
        { ctx := some .background, client := some .fromEnv, ct := {} }
        (CmdExecutorContainer.Stop
          ({ create := .error (.msg "no such image"),
             stop := some (.msg "No such container") } : Script).world
          { ctx := some .background, client := some .fromEnv, ct := {} }
          { world := 0, trace := [] }).2).1 =
      .ret (some (.msg "No such container")) ∧
    (CmdExecutorContainer.Stop
        ({ create := .error (.msg "no such image"),
           stop := some (.msg "No such container") } : Script).world
        { ctx := some .background, client := some .fromEnv, ct := {} }
        (CmdExecutorContainer.Stop
          ({ create := .error (.msg "no such image"),
             stop := some (.msg "No such container") } : Script).world
          { ctx := some .background, client := some .fromEnv, ct := {} }
          { world := 0, trace := [] }).2).2.trace =
      [.containerStop "", .containerStop ""] :=
  ⟨by decide,
   Stop_returns_with_client
    ({ create := .error (.msg "no such image"),
       stop := some (.msg "No such container") } : Script).world
    { ctx := some .background, client := some .fromEnv, ct := {} }
    { world := 0, trace := [] } .fromEnv .background rfl rfl⟩

end RpcIntoContainer
